import Mathlib

/-!
Shallow embedding of the ticket ownership / check-in core of the
Ticket-Runners backend (Django), translated from:

* `backend/tickets/models.py` — `Ticket.mark_as_used`, `Ticket.refund`,
  `TicketTransfer`
* `backend/apps/usher_portal/views.py` — `usher_scan_result`
* `backend/apps/webapp/views.py` — `ticket_book`, `user_tickets_list`,
  `user_ticket_transfer`, `user_ticket_gift`, and the ticket-linking block
  shared by `user_complete_registration` / `user_verify_login_otp`
* `backend/events/models.py` — `TicketCategory.tickets_available`,
  `Event.tickets_available`

Database rows become list entries; `objects.get` / `.filter(...).first()`
become `List.find?` / a fold picking the most recent purchase (Django's
default ordering on tickets is `-purchase_date`); `save()` writes the
mutated record back over every row with the same primary key.  UUID primary
keys are modelled by a `Nat` counter, timestamps by `Nat`, and the
`Decimal` money type by `Int` (no claim divides prices).  The model classes
`Customer`, `NFCCard` and `CheckinLog` are declared in modules that only
appear through their uses in the views above; their record shapes below are
reconstructed from those uses (lookup by mobile / serial, `card.customer`,
the keyword arguments of `CheckinLog.objects.create`).
-/

namespace TicketRunners

/-- Ticket lifecycle status, from `Ticket.STATUS_CHOICES`. -/
inductive TStatus where
  | valid
  | used
  | refunded
  | banned
deriving DecidableEq, Repr

/-- One ticket row (`tickets.models.Ticket`).  `customer` is the current
holder, `buyer` the original purchaser (nullable on legacy rows), and the
`assigned*` fields are the nullable pending-assignment triple. -/
structure Ticket where
  id : Nat
  eventId : Nat
  customer : Nat
  buyer : Option Nat
  category : String
  price : Int
  purchaseDate : Nat
  status : TStatus
  checkInTime : Option Nat
  assignedName : Option String
  assignedMobile : Option String
  assignedEmail : Option String
deriving DecidableEq, Repr

/-- A customer row; shape reconstructed from its uses in the views
(lookups by `mobile_number`, the `status='active'` filter, `customer.id`). -/
structure Customer where
  id : Nat
  mobile : String
  status : String
  name : String
deriving DecidableEq, Repr

/-- An event row (`events.models.Event`), restricted to the fields the
embedded operations touch. -/
structure Event where
  id : Nat
  totalTickets : Nat
  startingPrice : Option Int
  ticketLimit : Nat
  transferEnabled : Bool
deriving DecidableEq, Repr

/-- A ticket-category row (`events.models.TicketCategory`). -/
structure TicketCategory where
  eventId : Nat
  name : String
  price : Int
  totalTickets : Nat
deriving DecidableEq, Repr

/-- An NFC card row; shape reconstructed from `usher_scan_result`
(`NFCCard.objects.get(serial_number=...)`, `card.customer`). -/
structure Card where
  serial : String
  customer : Option Nat
deriving DecidableEq, Repr

/-- One check-in log row (`system.models.CheckinLog`); shape reconstructed
from the `CheckinLog.objects.create(...)` call in `usher_scan_result`. -/
structure LogRow where
  customerId : Nat
  eventId : Nat
  ticketId : Option Nat
  cardSerial : String
  scanResult : String
  notes : String
deriving DecidableEq, Repr

/-- One transfer-history row (`tickets.models.TicketTransfer`). -/
structure TransferRec where
  ticketId : Nat
  fromCustomer : Nat
  toCustomer : Nat
  status : String
deriving DecidableEq, Repr

/-- The durable store: the relational tables the embedded operations read
and write.  `nextId` stands in for UUID generation of fresh ticket ids. -/
structure State where
  tickets : List Ticket
  customers : List Customer
  events : List Event
  categories : List TicketCategory
  cards : List Card
  logs : List LogRow
  transfers : List TransferRec
  nextId : Nat
deriving DecidableEq, Repr

/-! ### Row lookups (Django `objects.get` / `.filter(...).first()`) -/

/-- `NFCCard.objects.get(serial_number=card_id)`. -/
def findCard (s : State) (serial : String) : Option Card :=
  s.cards.find? (fun c => c.serial = serial)

/-- `Event.objects.get(id=event_id)`. -/
def findEvent (s : State) (eventId : Nat) : Option Event :=
  s.events.find? (fun e => e.id = eventId)

/-- `TicketCategory.objects.get(event=event, name=category)`. -/
def findCategory (s : State) (eventId : Nat) (name : String) : Option TicketCategory :=
  s.categories.find? (fun c => c.eventId = eventId ∧ c.name = name)

/-- `Customer.objects.filter(mobile_number=m).first()` (no status filter —
this is the booking-time lookup). -/
def findCustomerByMobile (s : State) (mobile : String) : Option Customer :=
  s.customers.find? (fun c => c.mobile = mobile)

/-- `Customer.objects.get(mobile_number=m, status='active')` (transfer /
gift recipient lookup). -/
def findActiveCustomer (s : State) (mobile : String) : Option Customer :=
  s.customers.find? (fun c => c.mobile = mobile ∧ c.status = "active")

/-- Accumulator step returning the row with the greatest `purchase_date`,
keeping the earlier row on ties — the head of a stable sort by
`-purchase_date`, Django's default `Ticket` ordering. -/
def pickLatest : Option Ticket → Ticket → Option Ticket
  | none, t => some t
  | some b, t => if t.purchaseDate > b.purchaseDate then some t else some b

/-- `.first()` on a ticket queryset under the default `-purchase_date`
ordering. -/
def firstByPurchaseDesc (ts : List Ticket) : Option Ticket :=
  ts.foldl pickLatest none

/-- `Ticket.objects.filter(customer=customer, event=event).first()`. -/
def findScanTicket (s : State) (custId eventId : Nat) : Option Ticket :=
  firstByPurchaseDesc (s.tickets.filter (fun t => t.customer = custId ∧ t.eventId = eventId))

/-! ### Ticket model methods (`tickets/models.py`) -/

/-- `Ticket.mark_as_used`: compare-and-set `valid → used`, stamping the
check-in time; returns the saved row and whether the update applied. -/
def Ticket.markAsUsed (t : Ticket) (now : Nat) : Ticket × Bool :=
  if t.status = TStatus.valid then
    ({ t with status := TStatus.used, checkInTime := some now }, true)
  else (t, false)

/-- `Ticket.refund`: `valid`/`used` → `refunded`; returns the saved row and
whether the update applied. -/
def Ticket.refund (t : Ticket) : Ticket × Bool :=
  if t.status = TStatus.valid ∨ t.status = TStatus.used then
    ({ t with status := TStatus.refunded }, true)
  else (t, false)

/-! ### Check-in engine (`usher_scan_result`, usher portal) -/

/-- Operator-reported scan outcome, from `ScanResultSerializer`'s
`result` choice field. -/
inductive SResult where
  | valid
  | invalid
  | alreadyScanned
  | notFound
deriving DecidableEq, Repr

/-- The `scan_result_map` dictionary in `usher_scan_result` (every choice
is in the map, so the `.get(result, 'failed')` default is dead). -/
def scanResultMap : SResult → String
  | SResult.valid => "success"
  | SResult.invalid => "invalid"
  | SResult.alreadyScanned => "duplicate"
  | SResult.notFound => "failed"

/-- Responses returned by `usher_scan_result`. -/
inductive ScanResp where
  | ok (ticketId : Option Nat)
  | errNotFound
  | errNoCustomer
deriving DecidableEq, Repr

/-- `ticket.status = 'used'; ticket.save()` — the row with the scanned
ticket's primary key is overwritten with status `used` (note: no
compare-and-set, and `check_in_time` is not touched). -/
def markUsed (i : Nat) (u : Ticket) : Ticket :=
  if u.id = i then { u with status := TStatus.used } else u

/-- `usher_scan_result` (usher portal `POST /api/usher/scan/result/`):
resolve card and event, resolve the card's customer, find the most recent
ticket of that customer for the event, set its status to `used` when the
reported result is `valid`, and append one `CheckinLog` row.  The early
`NOT_FOUND` / `NO_CUSTOMER` returns write no log row. -/
def usherScanResult (s : State) (cardId : String) (eventId : Nat)
    (result : SResult) (notes : String) : State × ScanResp :=
  match findCard s cardId, findEvent s eventId with
  | some card, some event =>
    match card.customer with
    | none => (s, ScanResp.errNoCustomer)
    | some custId =>
      let ticket? := findScanTicket s custId event.id
      let tickets' :=
        match result, ticket? with
        | SResult.valid, some t => s.tickets.map (markUsed t.id)
        | _, _ => s.tickets
      let row : LogRow :=
        { customerId := custId
          eventId := event.id
          ticketId := ticket?.map Ticket.id
          cardSerial := card.serial
          scanResult := scanResultMap result
          notes := notes }
      ({ s with tickets := tickets', logs := s.logs ++ [row] },
       ScanResp.ok (ticket?.map Ticket.id))
  | _, _ => (s, ScanResp.errNotFound)

/-! ### Link reconciliation (registration / login, webapp portal)

The block shared verbatim by `user_complete_registration` and
`user_verify_login_otp`: every `valid` ticket whose `assigned_mobile`
equals the customer's mobile and whose holder is not already the customer
gets its holder set to the customer, its buyer backfilled only when null,
and its pending-assignment triple cleared. -/

/-- The loop body applied to one matching ticket (other tickets pass
through unchanged); the filter `assigned_mobile=mobile, status='valid'`
with `.exclude(customer=customer)` is the guard. -/
def linkOne (c : Customer) (t : Ticket) : Ticket :=
  if t.assignedMobile = some c.mobile ∧ t.status = TStatus.valid ∧ t.customer ≠ c.id then
    { t with
        customer := c.id
        buyer := match t.buyer with
          | none => some t.customer
          | some b => some b
        assignedName := none
        assignedMobile := none
        assignedEmail := none }
  else t

/-- `linkOne` mapped over the ticket table. -/
def linkTickets (ts : List Ticket) (c : Customer) : List Ticket :=
  ts.map (linkOne c)

/-- The whole-store effect of the linking block: only the ticket table is
written (no transfer record and no log row is created by this block). -/
def linkCustomer (s : State) (c : Customer) : State :=
  { s with tickets := linkTickets s.tickets c }

/-! ### Visibility (`user_tickets_list`, webapp portal) -/

/-- The `filter(...)/.exclude(...)` condition of `user_tickets_list`:
include holder, matching assigned mobile, or buyer-with-pending; exclude
buyer-no-longer-holder-with-no-pending. -/
def visibleTicket (c : Customer) (t : Ticket) : Bool :=
  (decide (t.customer = c.id ∨ t.assignedMobile = some c.mobile ∨
    (t.buyer = some c.id ∧ t.assignedMobile ≠ none))) &&
  !(decide (t.buyer = some c.id ∧ t.customer ≠ c.id ∧ t.assignedMobile = none))

/-- `user_tickets_list`: the rows of the ticket table visible to `c`. -/
def userTicketsList (s : State) (c : Customer) : List Ticket :=
  s.tickets.filter (visibleTicket c)

/-! ### Availability and pricing (`events/models.py`, `ticket_book`) -/

/-- `TicketCategory.sold_tickets`: non-cancelled (valid or used) tickets of
this event and category. -/
def soldTicketsCat (s : State) (tc : TicketCategory) : Nat :=
  (s.tickets.filter (fun t => t.eventId = tc.eventId ∧ t.category = tc.name ∧
    (t.status = TStatus.valid ∨ t.status = TStatus.used))).length

/-- `TicketCategory.tickets_available` (Python subtraction may go
negative, hence `Int`). -/
def catAvailable (s : State) (tc : TicketCategory) : Int :=
  (tc.totalTickets : Int) - (soldTicketsCat s tc : Int)

/-- `Event.tickets_sold`. -/
def soldTicketsEvent (s : State) (ev : Event) : Nat :=
  (s.tickets.filter (fun t => t.eventId = ev.id ∧
    (t.status = TStatus.valid ∨ t.status = TStatus.used))).length

/-- `Event.tickets_available`. -/
def eventAvailable (s : State) (ev : Event) : Int :=
  (ev.totalTickets : Int) - (soldTicketsEvent s ev : Int)

/-- The availability figure `ticket_book` checks: the category's count
when a `TicketCategory` row exists, the event-wide count otherwise. -/
def bookAvailable (s : State) (ev : Event) (category : String) : Int :=
  match findCategory s ev.id category with
  | some tc => catAvailable s tc
  | none => eventAvailable s ev

/-- The booking-level unit price: the category's price, falling back to
`event.starting_price`, falling back to the literal `300.00` default. -/
def bookPrice (s : State) (ev : Event) (category : String) : Int :=
  match findCategory s ev.id category with
  | some tc => tc.price
  | none =>
    match ev.startingPrice with
    | some p => p
    | none => 300

/-! ### Booking (`ticket_book`, webapp portal) -/

/-- One entry of the request's `ticket_details` list, as the view reads it
with `detail.get(...)`: `name`/`mobile`/`email` default to `""`,
`is_owner` to `False`, `category`/`price` to `None`. -/
structure BookDetail where
  name : String
  mobile : String
  email : String
  isOwner : Bool
  category : Option String
  price : Option Int
deriving DecidableEq, Repr

/-- Python `str.strip()`: drop leading and trailing whitespace (spelled
out over the character list so that it evaluates inside proofs). -/
def pyStrip (str : String) : String :=
  String.mk (((str.data.dropWhile Char.isWhitespace).reverse.dropWhile
    Char.isWhitespace).reverse)

/-- Python `detail.get('name', '').strip() or None`: strip, and empty
becomes null. -/
def normStr (str : String) : Option String :=
  if pyStrip str = "" then none else some (pyStrip str)

/-- Python truthiness of `detail.get('category')` (`None` and `""` are
falsy). -/
def catTruthy (d : BookDetail) : Bool :=
  match d.category with
  | none => false
  | some c => c ≠ ""

/-- The body of the ticket-creation loop in `ticket_book` for index `i`:
pick the per-ticket category/price from `ticket_details` when present
(`category` overriding, else an explicit `price` overriding), set `buyer`
to the purchaser, and for a non-owner detail store the stripped assignment
triple and point `customer` at an existing account with the assigned
mobile when there is one, else at the purchaser.  The source builds
`ticket_data` without a `customer` key and the detail logic fills it in
every case except a non-owner detail whose stripped mobile is empty;
there `customer` stays unset, `Ticket.objects.create(**ticket_data)`
raises on the non-null holder column and no row is written — modelled as
`none`. -/
def mkBookedTicket (s : State) (ev : Event) (buyerC : Customer)
    (bookCat : String) (pricePer : Int) (details : List BookDetail)
    (i : Nat) (newId : Nat) (now : Nat) : Option Ticket :=
  let catPrice : String × Int :=
    match details.get? i with
    | none => (bookCat, pricePer)
    | some d =>
      if catTruthy d then
        let c := d.category.getD ""
        match findCategory s ev.id c with
        | some sc => (c, sc.price)
        | none =>
          match ev.startingPrice with
          | some p => (c, p)
          | none => (c, 300)
      else
        match d.price with
        | some p => (bookCat, p)
        | none => (bookCat, pricePer)
  let assigned : Option String × Option String × Option String :=
    match details.get? i with
    | none => (none, none, none)
    | some d =>
      if d.isOwner then (none, none, none)
      else (normStr d.name, normStr d.mobile, normStr d.email)
  let customer? : Option Nat :=
    match details.get? i with
    | none => some buyerC.id
    | some d =>
      if d.isOwner then some buyerC.id
      else
        match normStr d.mobile with
        | none => none
        | some m =>
          match findCustomerByMobile s m with
          | some ac => some ac.id
          | none => some buyerC.id
  match customer? with
  | none => none
  | some cust =>
    some { id := newId
           eventId := ev.id
           customer := cust
           buyer := some buyerC.id
           category := catPrice.1
           price := catPrice.2
           purchaseDate := now
           status := TStatus.valid
           checkInTime := none
           assignedName := assigned.1
           assignedMobile := assigned.2.1
           assignedEmail := assigned.2.2 }

/-- The `for i in range(quantity)` creation loop: each index appends its
row; a raising `Ticket.objects.create` aborts the loop — rows already
created persist, the view has no transaction wrapper — and the flag
records whether every create succeeded. -/
def createTickets (mk : Nat → Option Ticket) (quantity : Nat) : List Ticket × Bool :=
  (List.range quantity).foldl
    (fun acc i =>
      match acc.2, mk i with
      | true, some t => (acc.1 ++ [t], true)
      | true, none => (acc.1, false)
      | false, _ => (acc.1, false))
    ([], true)

/-- Responses returned by `ticket_book` (`errBookingError` is the broad
`except Exception` handler's 500 `BOOKING_ERROR`). -/
inductive BookResp where
  | ok
  | errNotFound
  | errInsufficient
  | errLimit
  | errBookingError
deriving DecidableEq, Repr

/-- `ticket_book` (webapp portal `POST /api/v1/tickets/book/`): resolve
the event, check availability (category count when a `TicketCategory` row
exists, event-wide count otherwise), check the per-booking
`event.ticket_limit`, then create `quantity` tickets via the loop body
`mkBookedTicket`; a create that raises leaves the earlier rows in place
and surfaces as the 500 `BOOKING_ERROR` response.  Payment-transaction
bookkeeping and customer spending stats touch no table a claim reads and
are omitted. -/
def bookTickets (s : State) (buyerC : Customer) (eventId : Nat)
    (category : String) (quantity : Nat) (details : List BookDetail)
    (now : Nat) : State × BookResp :=
  match findEvent s eventId with
  | none => (s, BookResp.errNotFound)
  | some ev =>
    if bookAvailable s ev category < (quantity : Int) then
      (s, BookResp.errInsufficient)
    else if ev.ticketLimit < quantity then
      (s, BookResp.errLimit)
    else
      let created := createTickets (fun i =>
        mkBookedTicket s ev buyerC category (bookPrice s ev category)
          details i (s.nextId + i) now) quantity
      ({ s with tickets := s.tickets ++ created.1, nextId := s.nextId + quantity },
       if created.2 then BookResp.ok else BookResp.errBookingError)

/-- `TicketBookingSerializer` declares exactly `event_id`, `category`,
`quantity`, `payment_method` — no `ticket_details` field — so DRF
`validated_data` never carries the request's `ticket_details` and the
view's `validated_data.get('ticket_details', [])` is `[]` for every
request, whatever the request body held. -/
def validatedTicketDetails (_rawDetails : List BookDetail) : List BookDetail :=
  []

/-- The booking endpoint as reachable over HTTP: serializer validation
(which drops `ticket_details`) followed by the view logic. -/
def ticketBookEndpoint (s : State) (buyerC : Customer) (eventId : Nat)
    (category : String) (quantity : Nat) (rawDetails : List BookDetail)
    (now : Nat) : State × BookResp :=
  bookTickets s buyerC eventId category quantity
    (validatedTicketDetails rawDetails) now

/-! ### Transfer and gift (webapp portal) -/

/-- `Ticket.objects.get(id=ticket_id, customer_id=customer.id)`. -/
def findOwnedTicket (s : State) (ticketId custId : Nat) : Option Ticket :=
  s.tickets.find? (fun t => t.id = ticketId ∧ t.customer = custId)

/-- `save()` of a fetched-and-mutated ticket object: the row with its
primary key is overwritten. -/
def saveTicket (ts : List Ticket) (t : Ticket) : List Ticket :=
  ts.map (fun u => if u.id = t.id then t else u)

/-- Responses returned by `user_ticket_transfer` / `user_ticket_gift`. -/
inductive XferResp where
  | ok
  | errNotFound
  | errInvalidTicket
  | errTransferDisabled
  | errMobileRequired
  | errRecipientNotFound
  | errEventMissing
deriving DecidableEq, Repr

/-- `user_ticket_transfer` (`POST /api/v1/users/tickets/:id/transfer/`):
requires the caller to hold the ticket, the ticket `valid`, and the
event's `ticket_transfer_enabled`.  With an existing active recipient the
holder moves, the buyer is backfilled only when null, the assignment
triple is cleared and a `completed` `TicketTransfer` row is appended; with
no such recipient the assignment triple is set (name possibly empty),
the holder stays, and no transfer row is written.  The transfer-fee
`PaymentTransaction` (created already `completed`, gating nothing) is
omitted; `errEventMissing` covers a dangling event foreign key the
database excludes. -/
def transferTicket (s : State) (actorId ticketId : Nat)
    (recipientMobile recipientName : String) : State × XferResp :=
  match findOwnedTicket s ticketId actorId with
  | none => (s, XferResp.errNotFound)
  | some t =>
    if t.status ≠ TStatus.valid then (s, XferResp.errInvalidTicket)
    else
      match findEvent s t.eventId with
      | none => (s, XferResp.errEventMissing)
      | some ev =>
        if ¬ ev.transferEnabled then (s, XferResp.errTransferDisabled)
        else if recipientMobile = "" then (s, XferResp.errMobileRequired)
        else
          match findActiveCustomer s recipientMobile with
          | some r =>
            let t' := { t with
              customer := r.id
              buyer := match t.buyer with
                | none => some t.customer
                | some b => some b
              assignedName := none
              assignedMobile := none
              assignedEmail := none }
            ({ s with
                tickets := saveTicket s.tickets t'
                transfers := s.transfers ++
                  [{ ticketId := t.id, fromCustomer := t.customer,
                     toCustomer := r.id, status := "completed" }] },
             XferResp.ok)
          | none =>
            let t' := { t with
              assignedName := some (pyStrip recipientName)
              assignedMobile := some recipientMobile
              assignedEmail := none
              buyer := match t.buyer with
                | none => some t.customer
                | some b => some b }
            ({ s with tickets := saveTicket s.tickets t' }, XferResp.ok)

/-- `user_ticket_gift` (`POST /api/v1/users/tickets/:id/gift/`): requires
the caller to hold the ticket, the ticket `valid`, and the recipient to be
an existing active customer.  Only `ticket.customer` is rewritten: buyer
and the assignment triple are untouched and no `TicketTransfer` row is
written. -/
def giftTicket (s : State) (actorId ticketId : Nat)
    (recipientMobile : String) : State × XferResp :=
  match findOwnedTicket s ticketId actorId with
  | none => (s, XferResp.errNotFound)
  | some t =>
    if t.status ≠ TStatus.valid then (s, XferResp.errInvalidTicket)
    else if recipientMobile = "" then (s, XferResp.errMobileRequired)
    else
      match findActiveCustomer s recipientMobile with
      | none => (s, XferResp.errRecipientNotFound)
      | some r =>
        ({ s with tickets := saveTicket s.tickets { t with customer := r.id } },
         XferResp.ok)

/-! ### Ownership-operation sequences (for the buyer-immutability claim) -/

/-- One ownership-moving operation: transfer, gift, or the link block. -/
inductive OwnOp where
  | transfer (actorId ticketId : Nat) (recipientMobile recipientName : String)
  | gift (actorId ticketId : Nat) (recipientMobile : String)
  | link (c : Customer)
deriving DecidableEq, Repr

/-- Apply one ownership operation, keeping the resulting store. -/
def applyOp (s : State) : OwnOp → State
  | OwnOp.transfer a t m n => (transferTicket s a t m n).1
  | OwnOp.gift a t m => (giftTicket s a t m).1
  | OwnOp.link c => linkCustomer s c

/-- Apply a sequence of ownership operations left to right. -/
def applyOps (s : State) (ops : List OwnOp) : State :=
  ops.foldl applyOp s

/-! ### Concrete fixtures, used by counterexamples and witnesses -/

/-- Customer A, the purchaser in the concrete scenarios. -/
def cA : Customer := { id := 1, mobile := "0100", status := "active", name := "A" }

/-- Customer B, a pre-existing active account. -/
def cB : Customer := { id := 2, mobile := "0200", status := "active", name := "B" }

/-- Customer C, a third account. -/
def cC : Customer := { id := 3, mobile := "0300", status := "active", name := "C" }

/-- An event with transfers enabled, ten seats and a ten-per-booking
limit. -/
def ev1 : Event :=
  { id := 10, totalTickets := 10, startingPrice := some 500,
    ticketLimit := 10, transferEnabled := true }

/-- The VIP ticket category of `ev1`: three seats at 500. -/
def vipCat : TicketCategory :=
  { eventId := 10, name := "VIP", price := 500, totalTickets := 3 }

/-- An NFC card registered to customer A. -/
def card1 : Card := { serial := "c1", customer := some 1 }

/-- A ticket of `ev1` held and bought by customer A, already used. -/
def tUsed : Ticket :=
  { id := 5, eventId := 10, customer := 1, buyer := some 1, category := "VIP",
    price := 500, purchaseDate := 100, status := TStatus.used,
    checkInTime := some 120, assignedName := none, assignedMobile := none,
    assignedEmail := none }

/-- The same ticket in status `refunded`. -/
def tRefunded : Ticket := { tUsed with status := TStatus.refunded, checkInTime := none }

/-- The same ticket in status `valid`. -/
def tValid : Ticket := { tUsed with status := TStatus.valid, checkInTime := none }

/-- A store whose only ticket is refunded, with A's card registered. -/
def sRefunded : State :=
  { tickets := [tRefunded], customers := [cA], events := [ev1],
    categories := [vipCat], cards := [card1], logs := [], transfers := [],
    nextId := 100 }

/-- The empty store. -/
def sEmpty : State :=
  { tickets := [], customers := [], events := [], categories := [],
    cards := [], logs := [], transfers := [], nextId := 0 }

/-! ### C3 — status-transition monotonicity -/

/-- C3 counterexample: the claim says `used` is terminal, but
`Ticket.refund` moves a `used` ticket to `refunded` and reports that the
update applied. -/
theorem c3_used_not_terminal :
    tUsed.status = TStatus.used ∧
    (Ticket.refund tUsed).1.status = TStatus.refunded ∧
    (Ticket.refund tUsed).2 = true := by decide

/-- C3 (amended): `mark_as_used` moves exactly `valid → used` and fixes
every other status; `refund` moves exactly `valid → refunded` and
`used → refunded` and fixes `refunded`/`banned`; but the scan-commit write
`markUsed` sets the matched ticket's status to `used` whatever its
previous status was. -/
theorem c3_transition_characterization (t : Ticket) (now : Nat) :
    ((Ticket.markAsUsed t now).1.status
      = if t.status = TStatus.valid then TStatus.used else t.status) ∧
    ((Ticket.refund t).1.status
      = if t.status = TStatus.valid ∨ t.status = TStatus.used then TStatus.refunded
        else t.status) ∧
    (∀ i u, (markUsed i u).status
      = if u.id = i then TStatus.used else u.status) := by
  refine ⟨?_, ?_, ?_⟩
  · unfold Ticket.markAsUsed
    split <;> simp
  · unfold Ticket.refund
    split <;> simp_all
  · intro i u
    unfold markUsed
    split <;> simp

/-! ### C6 — idempotence of Link -/

/-- The linking loop body either leaves a ticket alone or clears its
assigned mobile. -/
theorem linkOne_cases (c : Customer) (t : Ticket) :
    linkOne c t = t ∨ (linkOne c t).assignedMobile = none := by
  rw [linkOne]
  split
  · right
    rfl
  · left
    rfl

/-- Applying the linking loop body twice is applying it once: a rewritten
ticket has its assigned mobile cleared, so the filter no longer matches
it. -/
theorem linkOne_idem (c : Customer) (t : Ticket) :
    linkOne c (linkOne c t) = linkOne c t := by
  rcases linkOne_cases c t with h | h
  · rw [h]
    exact h
  · rw [linkOne, if_neg]
    rintro ⟨hm, _⟩
    rw [h] at hm
    exact Option.noConfusion hm

/-- C6: the ticket-linking block run on registration and login is
idempotent — running `linkCustomer` twice leaves exactly the store that
one run produces. -/
theorem c6_link_idempotent (s : State) (c : Customer) :
    linkCustomer (linkCustomer s c) c = linkCustomer s c := by
  simp only [linkCustomer, linkTickets]
  congr 1
  rw [List.map_map]
  have hfun : linkOne c ∘ linkOne c = linkOne c :=
    funext (fun t => linkOne_idem c t)
  rw [hfun]

/-! ### C7 — the visibility query -/

/-- A ticket held by customer 1, bought by customer 2, pending-assigned to
mobile "0300". -/
def tAssignedToC : Ticket :=
  { tValid with
    id := 6
    customer := 1
    buyer := some 2
    assignedName := some "C"
    assignedMobile := some "0300" }

/-- C7 counterexample: this ticket is visible to customer C although C is
neither its holder nor its buyer — the query also matches on
`assigned_mobile = C.mobile`, a case the claim's "if and only if" does not
allow. -/
theorem c7_visible_to_non_holder_non_buyer :
    visibleTicket cC tAssignedToC = true ∧
    tAssignedToC.customer ≠ cC.id ∧
    tAssignedToC.buyer ≠ some cC.id := by decide

/-- The filter/exclude condition of `user_tickets_list`, solved: the
exclude clause removes nothing from the union, and visibility is exactly
holder, matching assigned mobile, or buyer-with-pending-assignment. -/
theorem visibleTicket_iff (c : Customer) (t : Ticket) :
    visibleTicket c t = true ↔
      (t.customer = c.id ∨ t.assignedMobile = some c.mobile ∨
        (t.buyer = some c.id ∧ t.assignedMobile ≠ none)) := by
  simp only [visibleTicket, Bool.and_eq_true, Bool.not_eq_true',
    decide_eq_true_eq, decide_eq_false_iff_not]
  constructor
  · rintro ⟨hA, _⟩
    exact hA
  · intro hA
    refine ⟨hA, ?_⟩
    rintro ⟨hb, hc, hm⟩
    rcases hA with h | h | ⟨_, h⟩
    · exact hc h
    · rw [hm] at h
      exact Option.noConfusion h
    · exact h hm

/-- C7 (amended): `user_tickets_list` returns a ticket for customer C
exactly when C is the current holder, or the pending-assignment mobile is
C's mobile, or C is the buyer and a pending-assignment mobile is set; in
particular a fully transferred-away ticket (buyer C, holder not C, no
pending assignment) is never returned. -/
theorem c7_visibility_characterization (s : State) (c : Customer) (t : Ticket) :
    t ∈ userTicketsList s c ↔
      t ∈ s.tickets ∧
        (t.customer = c.id ∨ t.assignedMobile = some c.mobile ∨
          (t.buyer = some c.id ∧ t.assignedMobile ≠ none)) := by
  rw [userTicketsList, List.mem_filter, visibleTicket_iff]

/-! ### C1 / C2 — the scan commit (`usher_scan_result`) -/

/-- The scan-commit write touches only the status field. -/
theorem markUsed_id (i : Nat) (u : Ticket) : (markUsed i u).id = u.id := by
  rw [markUsed]
  split <;> rfl

/-- The scan-commit write preserves the holder. -/
theorem markUsed_customer (i : Nat) (u : Ticket) :
    (markUsed i u).customer = u.customer := by
  rw [markUsed]
  split <;> rfl

/-- The scan-commit write preserves the event. -/
theorem markUsed_eventId (i : Nat) (u : Ticket) :
    (markUsed i u).eventId = u.eventId := by
  rw [markUsed]
  split <;> rfl

/-- The scan-commit write preserves the purchase date. -/
theorem markUsed_purchaseDate (i : Nat) (u : Ticket) :
    (markUsed i u).purchaseDate = u.purchaseDate := by
  rw [markUsed]
  split <;> rfl

/-- Writing `used` over a row twice is writing it once. -/
theorem markUsed_idem (i : Nat) (u : Ticket) :
    markUsed i (markUsed i u) = markUsed i u := by
  by_cases h : u.id = i
  · have h1 : markUsed i u = { u with status := TStatus.used } := by
      rw [markUsed, if_pos h]
    rw [h1, markUsed, if_pos]
    exact h
  · have h1 : markUsed i u = u := by
      rw [markUsed, if_neg h]
    rw [h1]
    exact h1

/-- Filtering on holder and event commutes with the scan-commit write,
which changes neither. -/
theorem filter_markUsed (i custId eventId : Nat) (ts : List Ticket) :
    (ts.map (markUsed i)).filter
        (fun t => decide (t.customer = custId ∧ t.eventId = eventId))
      = (ts.filter (fun t => decide (t.customer = custId ∧ t.eventId = eventId))).map
          (markUsed i) := by
  rw [List.filter_map]
  have hfun : ((fun t : Ticket => decide (t.customer = custId ∧ t.eventId = eventId))
        ∘ markUsed i)
      = fun t : Ticket => decide (t.customer = custId ∧ t.eventId = eventId) := by
    funext u
    simp only [Function.comp_apply, markUsed_customer, markUsed_eventId]
  rw [hfun]

/-- One step of the most-recent-purchase fold commutes with the
scan-commit write. -/
theorem pickLatest_markUsed (i : Nat) (acc : Option Ticket) (a : Ticket) :
    pickLatest (acc.map (markUsed i)) (markUsed i a)
      = (pickLatest acc a).map (markUsed i) := by
  cases acc with
  | none => rfl
  | some b =>
    simp only [Option.map_some', pickLatest, markUsed_purchaseDate]
    split <;> rfl

/-- The most-recent-purchase fold commutes with the scan-commit write. -/
theorem foldl_pickLatest_markUsed (i : Nat) (l : List Ticket) :
    ∀ acc : Option Ticket,
      (l.map (markUsed i)).foldl pickLatest (acc.map (markUsed i))
        = (l.foldl pickLatest acc).map (markUsed i) := by
  induction l with
  | nil => intro acc; rfl
  | cons a l ih =>
    intro acc
    simp only [List.map_cons, List.foldl_cons]
    rw [pickLatest_markUsed, ih]

/-- The most-recent-purchase pick commutes with the scan-commit write. -/
theorem firstByPurchaseDesc_markUsed (i : Nat) (l : List Ticket) :
    firstByPurchaseDesc (l.map (markUsed i))
      = (firstByPurchaseDesc l).map (markUsed i) := by
  rw [firstByPurchaseDesc, firstByPurchaseDesc]
  exact foldl_pickLatest_markUsed i l none

/-- Resolving the scanned ticket after the scan-commit write finds the
written image of the ticket it found before. -/
theorem findScanTicket_markUsed (s : State) (i custId eventId : Nat) :
    findScanTicket { s with tickets := s.tickets.map (markUsed i) } custId eventId
      = (findScanTicket s custId eventId).map (markUsed i) := by
  have h1 : findScanTicket { s with tickets := s.tickets.map (markUsed i) } custId eventId
      = firstByPurchaseDesc ((s.tickets.map (markUsed i)).filter
          (fun t => decide (t.customer = custId ∧ t.eventId = eventId))) := rfl
  have h2 : findScanTicket s custId eventId
      = firstByPurchaseDesc (s.tickets.filter
          (fun t => decide (t.customer = custId ∧ t.eventId = eventId))) := rfl
  rw [h1, h2, filter_markUsed, firstByPurchaseDesc_markUsed]

/-- Writing `used` over the same row twice leaves the table of the single
write. -/
theorem map_markUsed_idem (i : Nat) (ts : List Ticket) :
    (ts.map (markUsed i)).map (markUsed i) = ts.map (markUsed i) := by
  rw [List.map_map]
  have hfun : markUsed i ∘ markUsed i = markUsed i :=
    funext (fun u => markUsed_idem i u)
  rw [hfun]

/-- C1 counterexample: in a store whose only ticket is `refunded`, one
scan commit with result `valid` rewrites that ticket's status to `used` —
the commit is not a compare-and-set on `valid`, and a ticket whose status
is not `valid` does not keep its status. -/
theorem c1_scan_overwrites_refunded :
    tRefunded.status = TStatus.refunded ∧
    (usherScanResult sRefunded "c1" 10 SResult.valid "").1.tickets.map Ticket.status
      = [TStatus.used] := by decide

/-- C1 (amended): the scan commit applies the `used` write with no
compare-and-set — whenever the reported result is `valid` and a ticket
resolves, its status is set to `used` regardless of the observed status
(and check-in time is never written by this endpoint).  Repeating the call
still changes no ticket the second time, but a single call on a refunded
or banned ticket overwrites its status with `used`. -/
theorem c1_scan_commit_idempotent_on_tickets (s : State) (cardId : String)
    (eventId : Nat) (r : SResult) (n1 n2 : String) :
    (usherScanResult (usherScanResult s cardId eventId r n1).1 cardId eventId r n2).1.tickets
      = (usherScanResult s cardId eventId r n1).1.tickets := by
  rcases hc : findCard s cardId with _ | card
  · simp only [usherScanResult, hc]
  · rcases he : findEvent s eventId with _ | ev
    · simp only [usherScanResult, hc, he]
    · rcases hcu : card.customer with _ | custId
      · simp only [usherScanResult, hc, he, hcu]
      · rcases ht : findScanTicket s custId ev.id with _ | t
        · have A1 : (usherScanResult s cardId eventId r n1).1.tickets = s.tickets := by
            cases r <;> simp only [usherScanResult, hc, he, hcu, ht]
          have A2 : findCard (usherScanResult s cardId eventId r n1).1 cardId = some card := by
            cases r <;> simp only [usherScanResult, hc, he, hcu, ht] <;> exact hc
          have A3 : findEvent (usherScanResult s cardId eventId r n1).1 eventId = some ev := by
            cases r <;> simp only [usherScanResult, hc, he, hcu, ht] <;> exact he
          have A4 : findScanTicket (usherScanResult s cardId eventId r n1).1 custId ev.id
              = none := by
            cases r <;> simp only [usherScanResult, hc, he, hcu, ht] <;> exact ht
          obtain ⟨S, hS⟩ : ∃ S, (usherScanResult s cardId eventId r n1).1 = S := ⟨_, rfl⟩
          rw [hS] at A1 A2 A3 A4 ⊢
          cases r <;> simp only [usherScanResult, A2, A3, hcu, A4]
        · cases r with
          | valid =>
            have A1 : (usherScanResult s cardId eventId SResult.valid n1).1.tickets
                = s.tickets.map (markUsed t.id) := by
              simp only [usherScanResult, hc, he, hcu, ht]
            have A2 : findCard (usherScanResult s cardId eventId SResult.valid n1).1 cardId
                = some card := by
              simp only [usherScanResult, hc, he, hcu, ht]
              exact hc
            have A3 : findEvent (usherScanResult s cardId eventId SResult.valid n1).1 eventId
                = some ev := by
              simp only [usherScanResult, hc, he, hcu, ht]
              exact he
            have A4 : findScanTicket (usherScanResult s cardId eventId SResult.valid n1).1
                custId ev.id = some (markUsed t.id t) := by
              have h6 := findScanTicket_markUsed s t.id custId ev.id
              rw [ht, Option.map_some'] at h6
              simp only [usherScanResult, hc, he, hcu, ht]
              exact h6
            obtain ⟨S, hS⟩ :
                ∃ S, (usherScanResult s cardId eventId SResult.valid n1).1 = S := ⟨_, rfl⟩
            rw [hS] at A1 A2 A3 A4 ⊢
            simp only [usherScanResult, A2, A3, hcu, A4]
            rw [markUsed_id, A1, map_markUsed_idem]
          | invalid =>
            have A1 : (usherScanResult s cardId eventId SResult.invalid n1).1.tickets
                = s.tickets := by
              simp only [usherScanResult, hc, he, hcu, ht]
            have A2 : findCard (usherScanResult s cardId eventId SResult.invalid n1).1 cardId
                = some card := by
              simp only [usherScanResult, hc, he, hcu, ht]
              exact hc
            have A3 : findEvent (usherScanResult s cardId eventId SResult.invalid n1).1 eventId
                = some ev := by
              simp only [usherScanResult, hc, he, hcu, ht]
              exact he
            have A4 : findScanTicket (usherScanResult s cardId eventId SResult.invalid n1).1
                custId ev.id = some t := by
              simp only [usherScanResult, hc, he, hcu, ht]
              exact ht
            obtain ⟨S, hS⟩ :
                ∃ S, (usherScanResult s cardId eventId SResult.invalid n1).1 = S := ⟨_, rfl⟩
            rw [hS] at A1 A2 A3 A4 ⊢
            simp only [usherScanResult, A2, A3, hcu, A4]
          | alreadyScanned =>
            have A1 : (usherScanResult s cardId eventId SResult.alreadyScanned n1).1.tickets
                = s.tickets := by
              simp only [usherScanResult, hc, he, hcu, ht]
            have A2 : findCard (usherScanResult s cardId eventId SResult.alreadyScanned n1).1
                cardId = some card := by
              simp only [usherScanResult, hc, he, hcu, ht]
              exact hc
            have A3 : findEvent (usherScanResult s cardId eventId SResult.alreadyScanned n1).1
                eventId = some ev := by
              simp only [usherScanResult, hc, he, hcu, ht]
              exact he
            have A4 : findScanTicket (usherScanResult s cardId eventId SResult.alreadyScanned n1).1
                custId ev.id = some t := by
              simp only [usherScanResult, hc, he, hcu, ht]
              exact ht
            obtain ⟨S, hS⟩ :
                ∃ S, (usherScanResult s cardId eventId SResult.alreadyScanned n1).1 = S :=
              ⟨_, rfl⟩
            rw [hS] at A1 A2 A3 A4 ⊢
            simp only [usherScanResult, A2, A3, hcu, A4]
          | notFound =>
            have A1 : (usherScanResult s cardId eventId SResult.notFound n1).1.tickets
                = s.tickets := by
              simp only [usherScanResult, hc, he, hcu, ht]
            have A2 : findCard (usherScanResult s cardId eventId SResult.notFound n1).1 cardId
                = some card := by
              simp only [usherScanResult, hc, he, hcu, ht]
              exact hc
            have A3 : findEvent (usherScanResult s cardId eventId SResult.notFound n1).1 eventId
                = some ev := by
              simp only [usherScanResult, hc, he, hcu, ht]
              exact he
            have A4 : findScanTicket (usherScanResult s cardId eventId SResult.notFound n1).1
                custId ev.id = some t := by
              simp only [usherScanResult, hc, he, hcu, ht]
              exact ht
            obtain ⟨S, hS⟩ :
                ∃ S, (usherScanResult s cardId eventId SResult.notFound n1).1 = S := ⟨_, rfl⟩
            rw [hS] at A1 A2 A3 A4 ⊢
            simp only [usherScanResult, A2, A3, hcu, A4]

/-- C2 counterexample: in a store with no cards at all, a scan attempt
returns the not-found error and writes no `CheckinLog` row — the audit
trail does miss this attempt, contrary to the claim. -/
theorem c2_not_found_writes_no_log :
    (usherScanResult sEmpty "c1" 10 SResult.notFound "").2 = ScanResp.errNotFound ∧
    (usherScanResult sEmpty "c1" 10 SResult.notFound "").1.logs.length = 0 := by decide

/-- C2 (amended): `usher_scan_result` appends exactly one `CheckinLog` row
when the card exists, the event exists and the card is assigned to a
customer — including the `invalid` / `already_scanned` / `not_found`
result classifications and an unresolved ticket — and appends no row at
all on the early card-not-found / event-not-found / no-customer error
returns. -/
theorem c2_scan_log_exactly_on_resolution (s : State) (cardId : String)
    (eventId : Nat) (r : SResult) (n : String) :
    (usherScanResult s cardId eventId r n).1.logs.length
      = s.logs.length +
        (if ((findCard s cardId).bind Card.customer).isSome ∧ (findEvent s eventId).isSome
         then 1 else 0) := by
  rcases hc : findCard s cardId with _ | card
  · simp only [usherScanResult, hc, Option.bind]
    simp
  · rcases he : findEvent s eventId with _ | ev
    · simp only [usherScanResult, hc, he]
      simp
    · rcases hcu : card.customer with _ | custId
      · simp only [usherScanResult, hc, he, hcu, Option.some_bind]
        simp
      · rcases ht : findScanTicket s custId ev.id with _ | t <;>
          cases r <;>
            · simp only [usherScanResult, hc, he, hcu, ht, Option.some_bind]
              simp

/-! ### C5 — buyer immutability -/

/-- Saving one fetched-and-rewritten ticket object preserves the property
"every row with this id has buyer `some b`", provided the rewritten object
has the fetched row's id and a buyer-preserving update. -/
theorem saveTicket_buyer_stable (ts : List Ticket) (t t' : Ticket) (tid b : Nat)
    (hmem : t ∈ ts) (hid : t'.id = t.id)
    (hbuy : t.buyer = some b → t'.buyer = some b)
    (H : ∀ u ∈ ts, u.id = tid → u.buyer = some b) :
    ∀ u ∈ saveTicket ts t', u.id = tid → u.buyer = some b := by
  intro u hu
  rcases List.mem_map.1 hu with ⟨v, hv, rfl⟩
  by_cases hvd : v.id = t'.id
  · rw [if_pos hvd]
    intro hut
    exact hbuy (H t hmem (by rw [← hid, hut]))
  · rw [if_neg hvd]
    exact H v hv

/-- One transfer call never rewrites a non-null buyer. -/
theorem transferTicket_buyer_stable (s : State) (a tid0 : Nat) (m n : String)
    (tid b : Nat) (H : ∀ u ∈ s.tickets, u.id = tid → u.buyer = some b) :
    ∀ u ∈ (transferTicket s a tid0 m n).1.tickets, u.id = tid → u.buyer = some b := by
  rcases hf : findOwnedTicket s tid0 a with _ | t
  · simp only [transferTicket, hf]
    exact H
  · have hmem : t ∈ s.tickets := List.mem_of_find?_eq_some hf
    rcases hs : decide (t.status ≠ TStatus.valid) with _ | _
    · rcases he : findEvent s t.eventId with _ | ev
      · simp only [transferTicket, hf, he]
        rw [if_neg (of_decide_eq_false hs)]
        exact H
      · rcases hen : decide (¬ ev.transferEnabled) with _ | _
        · rcases hm : decide (m = "") with _ | _
          · rcases hr : findActiveCustomer s m with _ | r
            · simp only [transferTicket, hf, he, hr]
              rw [if_neg (of_decide_eq_false hs), if_neg (of_decide_eq_false hen),
                if_neg (of_decide_eq_false hm)]
              refine saveTicket_buyer_stable s.tickets t _ tid b hmem rfl ?_ H
              intro hb
              simp only [hb]
            · simp only [transferTicket, hf, he, hr]
              rw [if_neg (of_decide_eq_false hs), if_neg (of_decide_eq_false hen),
                if_neg (of_decide_eq_false hm)]
              refine saveTicket_buyer_stable s.tickets t _ tid b hmem rfl ?_ H
              intro hb
              simp only [hb]
          · simp only [transferTicket, hf, he]
            rw [if_neg (of_decide_eq_false hs), if_neg (of_decide_eq_false hen),
              if_pos (of_decide_eq_true hm)]
            exact H
        · simp only [transferTicket, hf, he]
          rw [if_neg (of_decide_eq_false hs), if_pos (of_decide_eq_true hen)]
          exact H
    · simp only [transferTicket, hf]
      rw [if_pos (of_decide_eq_true hs)]
      exact H

/-- One gift call never touches the buyer column. -/
theorem giftTicket_buyer_stable (s : State) (a tid0 : Nat) (m : String)
    (tid b : Nat) (H : ∀ u ∈ s.tickets, u.id = tid → u.buyer = some b) :
    ∀ u ∈ (giftTicket s a tid0 m).1.tickets, u.id = tid → u.buyer = some b := by
  rcases hf : findOwnedTicket s tid0 a with _ | t
  · simp only [giftTicket, hf]
    exact H
  · have hmem : t ∈ s.tickets := List.mem_of_find?_eq_some hf
    rcases hs : decide (t.status ≠ TStatus.valid) with _ | _
    · rcases hm : decide (m = "") with _ | _
      · rcases hr : findActiveCustomer s m with _ | r
        · simp only [giftTicket, hf, hr]
          rw [if_neg (of_decide_eq_false hs), if_neg (of_decide_eq_false hm)]
          exact H
        · simp only [giftTicket, hf, hr]
          rw [if_neg (of_decide_eq_false hs), if_neg (of_decide_eq_false hm)]
          refine saveTicket_buyer_stable s.tickets t _ tid b hmem rfl ?_ H
          intro hb
          exact hb
      · simp only [giftTicket, hf]
        rw [if_neg (of_decide_eq_false hs), if_pos (of_decide_eq_true hm)]
        exact H
    · simp only [giftTicket, hf]
      rw [if_pos (of_decide_eq_true hs)]
      exact H

/-- The linking loop body never rewrites a non-null buyer and keeps ids. -/
theorem linkOne_buyer_stable (c : Customer) (u : Ticket) (tid b : Nat)
    (H : u.id = tid → u.buyer = some b) :
    (linkOne c u).id = tid → (linkOne c u).buyer = some b := by
  rw [linkOne]
  split
  · intro hid
    have hb := H hid
    simp only [hb]
  · exact H

/-- One link call never rewrites a non-null buyer. -/
theorem linkCustomer_buyer_stable (s : State) (c : Customer)
    (tid b : Nat) (H : ∀ u ∈ s.tickets, u.id = tid → u.buyer = some b) :
    ∀ u ∈ (linkCustomer s c).tickets, u.id = tid → u.buyer = some b := by
  intro u hu
  rcases List.mem_map.1 hu with ⟨v, hv, rfl⟩
  exact linkOne_buyer_stable c v tid b (H v hv)

/-- Every single ownership operation preserves a ticket's non-null
buyer. -/
theorem applyOp_buyer_stable (s : State) (op : OwnOp) (tid b : Nat)
    (H : ∀ u ∈ s.tickets, u.id = tid → u.buyer = some b) :
    ∀ u ∈ (applyOp s op).tickets, u.id = tid → u.buyer = some b := by
  cases op with
  | transfer a t0 m n => exact transferTicket_buyer_stable s a t0 m n tid b H
  | gift a t0 m => exact giftTicket_buyer_stable s a t0 m tid b H
  | link c => exact linkCustomer_buyer_stable s c tid b H

/-- C5: buyer immutability — if every row of ticket `tid` carries buyer
`some b`, then after any sequence of transfer, gift and link operations
every row of ticket `tid` still carries buyer `some b`: no ownership
operation overwrites a non-null buyer set at issuance. -/
theorem c5_buyer_immutable (s : State) (ops : List OwnOp) (tid b : Nat)
    (H : ∀ u ∈ s.tickets, u.id = tid → u.buyer = some b) :
    ∀ u ∈ (applyOps s ops).tickets, u.id = tid → u.buyer = some b := by
  induction ops generalizing s with
  | nil => exact H
  | cons op rest ih =>
    rw [applyOps, List.foldl_cons]
    exact ih (applyOp s op) (applyOp_buyer_stable s op tid b H)

/-- A store for the C5 witness: one valid ticket bought by customer A,
three active customers, transfers enabled. -/
def sC5 : State :=
  { tickets := [tValid], customers := [cA, cB, cC], events := [ev1],
    categories := [vipCat], cards := [], logs := [], transfers := [],
    nextId := 100 }

/-- The C5 witness operation sequence: A transfers the ticket to B, B
gifts it to C, then a link run for C. -/
def c5Ops : List OwnOp :=
  [OwnOp.transfer 1 5 "0200" "B", OwnOp.gift 2 5 "0300", OwnOp.link cC]

/-- C5 witness: on the concrete store the hypothesis holds and, concretely,
after transfer + gift + link the moved ticket still has buyer A. -/
theorem c5_buyer_immutable_witness :
    (∀ u ∈ sC5.tickets, u.id = 5 → u.buyer = some 1) ∧
    ∀ u ∈ (applyOps sC5 c5Ops).tickets, u.id = 5 → u.buyer = some 1 :=
  ⟨by decide, c5_buyer_immutable sC5 c5Ops 5 1 (by decide)⟩

/-! ### C9 — transfer records -/

/-- C9 counterexample: a successful gift moves the ticket to the recipient
yet writes no `TicketTransfer` row at all — not the claimed exactly-one
`completed` record per completed ownership change. -/
theorem c9_gift_writes_no_record :
    (giftTicket sC5 1 5 "0200").2 = XferResp.ok ∧
    (giftTicket sC5 1 5 "0200").1.tickets.map Ticket.customer = [2] ∧
    (giftTicket sC5 1 5 "0200").1.transfers = [] := by decide

/-- C9 (amended): exactly one `completed` `TicketTransfer` row is written
by a transfer to an existing active recipient; a transfer to an
unregistered mobile writes none; a gift writes none even though it moves
the ticket; and the link reconciliation writes none either — pending
assignments never produce a transfer record, not even on completion. -/
theorem c9_transfer_record_policy (s : State) :
    (∀ a tid0 m n t ev r,
      findOwnedTicket s tid0 a = some t →
      t.status = TStatus.valid →
      findEvent s t.eventId = some ev →
      ev.transferEnabled = true →
      m ≠ "" →
      findActiveCustomer s m = some r →
      (transferTicket s a tid0 m n).1.transfers
        = s.transfers ++ [TransferRec.mk t.id t.customer r.id "completed"]) ∧
    (∀ a tid0 m n,
      findActiveCustomer s m = none →
      (transferTicket s a tid0 m n).1.transfers = s.transfers) ∧
    (∀ a tid0 m, (giftTicket s a tid0 m).1.transfers = s.transfers) ∧
    (∀ c, (linkCustomer s c).transfers = s.transfers) := by
  refine ⟨?_, ?_, ?_, ?_⟩
  · intro a tid0 m n t ev r hf hs he hen hm hr
    simp only [transferTicket, hf, he, hr]
    rw [if_neg (by simp [hs]), if_neg (by simp [hen]), if_neg hm]
  · intro a tid0 m n hr
    rcases hf : findOwnedTicket s tid0 a with _ | t
    · simp only [transferTicket, hf]
    · simp only [transferTicket, hf, hr]
      split
      · rfl
      · split
        · rfl
        · split
          · rfl
          · split
            · rfl
            · rfl
  · intro a tid0 m
    rcases hf : findOwnedTicket s tid0 a with _ | t
    · simp only [giftTicket, hf]
    · simp only [giftTicket, hf]
      split
      · rfl
      · split
        · rfl
        · rcases hr : findActiveCustomer s m with _ | r <;> rfl
  · intro c
    rfl

/-- C9 witness: on the concrete store, transferring A's valid ticket to
the registered customer B appends exactly the one completed record. -/
theorem c9_transfer_record_policy_witness :
    (findOwnedTicket sC5 5 1 = some tValid ∧
      findActiveCustomer sC5 "0200" = some cB) ∧
    (transferTicket sC5 1 5 "0200" "B").1.transfers
      = sC5.transfers ++ [TransferRec.mk 5 1 2 "completed"] :=
  ⟨by decide,
   (c9_transfer_record_policy sC5).1 1 5 "0200" "B" tValid ev1 cB
     (by decide) (by decide) (by decide) (by decide) (by decide) (by decide)⟩

/-! ### The booking creation loop on the validated (empty) details list -/

/-- With no details, the loop body always succeeds and builds the plain
owner row: holder and buyer are the purchaser, category and price are the
booking-level ones, the pending triple is empty. -/
theorem mkBookedTicket_nil (s : State) (ev : Event) (buyerC : Customer)
    (bookCat : String) (pricePer : Int) (i newId now : Nat) :
    mkBookedTicket s ev buyerC bookCat pricePer [] i newId now
      = some (Ticket.mk newId ev.id buyerC.id (some buyerC.id) bookCat pricePer
          now TStatus.valid none none none none) := by
  simp only [mkBookedTicket, List.get?_nil]

/-- When every create succeeds, the loop returns all rows in order and
reports success. -/
theorem createTickets_all_some (mk : Nat → Option Ticket) (f : Nat → Ticket)
    (h : ∀ i, mk i = some (f i)) (q : Nat) :
    createTickets mk q = ((List.range q).map f, true) := by
  induction q with
  | zero => rfl
  | succ n ih =>
    unfold createTickets at ih ⊢
    rw [List.range_succ, List.foldl_append, ih, List.map_append]
    simp [h n]

/-! ### C4 — booking-time assignment and the exclusivity invariant -/

/-- A raw request detail asking to assign the bought ticket to mobile
"0200" (customer B's mobile); the serializer drops it before the view
loop runs. -/
def c4Detail : BookDetail :=
  { name := "Bob", mobile := "0200", email := "", isOwner := false,
    category := none, price := none }

/-- A store with no tickets, customers A and B, one event with a VIP
category. -/
def sBook : State :=
  { tickets := [], customers := [cA, cB], events := [ev1],
    categories := [vipCat], cards := [], logs := [], transfers := [],
    nextId := 50 }

/-- C4 counterexample: the exclusivity invariant fails on a reachable
path that involves no booking assignment at all — A transfers the valid
ticket to the unregistered mobile "0400" (pending-assignment triple set,
holder kept), then gifts it to the registered customer B: the gift
rewrites only the holder, leaving a non-buyer holder together with a
stored pending-assignment mobile. -/
theorem c4_gift_keeps_pending_assignment :
    (transferTicket sC5 1 5 "0400" "D").2 = XferResp.ok ∧
    (giftTicket (transferTicket sC5 1 5 "0400" "D").1 1 5 "0200").2 = XferResp.ok ∧
    (giftTicket (transferTicket sC5 1 5 "0400" "D").1 1 5 "0200").1.tickets.map
        (fun t => (t.customer, t.buyer, t.assignedMobile))
      = [(2, some 1, some "0400")] ∧
    (2 : Nat) ≠ 1 := by decide

/-- C4 (amended): the booking flow never stores a per-ticket assignment —
the serializer passes no `ticket_details` through validation, so every
ticket the endpoint creates has the purchaser as holder and buyer and an
empty pending-assignment triple.  The exclusivity invariant is still
violable, because a successful gift rewrites only the holder field and
preserves whatever pending-assignment triple the ticket carried. -/
theorem c4_booking_owner_rows_and_gift_preserves_pending (s : State)
    (buyerC : Customer) (eventId : Nat) (category : String) (quantity : Nat)
    (rawDetails : List BookDetail) (now : Nat) :
    (∀ t ∈ (ticketBookEndpoint s buyerC eventId category quantity rawDetails now).1.tickets,
      t ∈ s.tickets ∨
        (t.customer = buyerC.id ∧ t.buyer = some buyerC.id ∧
          t.assignedName = none ∧ t.assignedMobile = none ∧ t.assignedEmail = none)) ∧
    (∀ s' a tid m t r,
      findOwnedTicket s' tid a = some t →
      t.status = TStatus.valid →
      m ≠ "" →
      findActiveCustomer s' m = some r →
      (giftTicket s' a tid m).1.tickets
        = saveTicket s'.tickets { t with customer := r.id }) := by
  constructor
  · intro t ht
    simp only [ticketBookEndpoint, validatedTicketDetails] at ht
    rcases hev : findEvent s eventId with _ | ev
    · simp only [bookTickets, hev] at ht
      exact Or.inl ht
    · by_cases h1 : bookAvailable s ev category < (quantity : Int)
      · simp only [bookTickets, hev, if_pos h1] at ht
        exact Or.inl ht
      · by_cases h2 : ev.ticketLimit < quantity
        · simp only [bookTickets, hev, if_neg h1, if_pos h2] at ht
          exact Or.inl ht
        · have hct := createTickets_all_some
            (fun i => mkBookedTicket s ev buyerC category (bookPrice s ev category)
              [] i (s.nextId + i) now)
            (fun i => Ticket.mk (s.nextId + i) ev.id buyerC.id (some buyerC.id)
              category (bookPrice s ev category) now TStatus.valid
              none none none none)
            (fun i => mkBookedTicket_nil s ev buyerC category
              (bookPrice s ev category) i (s.nextId + i) now)
            quantity
          simp only [bookTickets, hev, if_neg h1, if_neg h2, hct] at ht
          rcases List.mem_append.1 ht with h | h
          · exact Or.inl h
          · rcases List.mem_map.1 h with ⟨j, _, rfl⟩
            exact Or.inr ⟨rfl, rfl, rfl, rfl, rfl⟩
  · intro s' a tid m t r hf hs hm hr
    simp only [giftTicket, hf, hr]
    rw [if_neg (by simp [hs]), if_neg hm]

/-- C4 witness: the endpoint booking of the counterexample's raw request
creates exactly the plain owner row, which satisfies the amended
statement's owner-row disjunct. -/
theorem c4_booking_owner_rows_witness :
    (Ticket.mk 50 10 1 (some 1) "VIP" 500 77 TStatus.valid none none none none
        ∈ (ticketBookEndpoint sBook cA 10 "VIP" 1 [c4Detail] 77).1.tickets) ∧
    (Ticket.mk 50 10 1 (some 1) "VIP" 500 77 TStatus.valid none none none none
        ∈ sBook.tickets ∨
      ((Ticket.mk 50 10 1 (some 1) "VIP" 500 77 TStatus.valid
          none none none none).customer = cA.id ∧
        (Ticket.mk 50 10 1 (some 1) "VIP" 500 77 TStatus.valid
          none none none none).buyer = some cA.id ∧
        (Ticket.mk 50 10 1 (some 1) "VIP" 500 77 TStatus.valid
          none none none none).assignedName = none ∧
        (Ticket.mk 50 10 1 (some 1) "VIP" 500 77 TStatus.valid
          none none none none).assignedMobile = none ∧
        (Ticket.mk 50 10 1 (some 1) "VIP" 500 77 TStatus.valid
          none none none none).assignedEmail = none)) :=
  ⟨by decide,
   (c4_booking_owner_rows_and_gift_preserves_pending sBook cA 10 "VIP" 1
       [c4Detail] 77).1
     (Ticket.mk 50 10 1 (some 1) "VIP" 500 77 TStatus.valid none none none none)
     (by decide)⟩

/-! ### C8 — capacity boundary -/

/-- Counting a filtered append splits over the two parts. -/
theorem length_filter_append (p : Ticket → Bool) (l₁ l₂ : List Ticket) :
    ((l₁ ++ l₂).filter p).length = (l₁.filter p).length + (l₂.filter p).length := by
  rw [List.filter_append, List.length_append]

/-- When every element passes, the filter keeps the whole list. -/
theorem length_filter_all (p : Ticket → Bool) (l : List Ticket)
    (h : ∀ t ∈ l, p t = true) : (l.filter p).length = l.length := by
  rw [List.filter_eq_self.2 h]

/-- C8: the booking capacity check.  With the booked event resolved: a
booking succeeds only when the quantity is within both the live
availability figure (category count when configured, event-wide count
otherwise) and the event's per-booking limit; asking for availability + 1
fails with the insufficient-tickets error touching nothing; and a plain
booking of exactly the remaining quantity succeeds and drives the
availability figure to zero. -/
theorem c8_capacity_boundary (s : State) (buyerC : Customer) (eventId : Nat)
    (category : String) (quantity : Nat) (details : List BookDetail) (now : Nat)
    (ev : Event) (hev : findEvent s eventId = some ev) :
    ((bookTickets s buyerC eventId category quantity details now).2 = BookResp.ok →
      (quantity : Int) ≤ bookAvailable s ev category ∧ quantity ≤ ev.ticketLimit) ∧
    ((quantity : Int) = bookAvailable s ev category + 1 →
      (bookTickets s buyerC eventId category quantity details now).2
          = BookResp.errInsufficient ∧
        (bookTickets s buyerC eventId category quantity details now).1 = s) ∧
    ((quantity : Int) = bookAvailable s ev category → 1 ≤ quantity →
      quantity ≤ ev.ticketLimit → details = [] →
      (bookTickets s buyerC eventId category quantity details now).2 = BookResp.ok ∧
        bookAvailable (bookTickets s buyerC eventId category quantity details now).1
          ev category = 0) := by
  refine ⟨?_, ?_, ?_⟩
  · intro hok
    by_cases h1 : bookAvailable s ev category < (quantity : Int)
    · exfalso
      simp only [bookTickets, hev, if_pos h1] at hok
      exact BookResp.noConfusion hok
    · by_cases h2 : ev.ticketLimit < quantity
      · exfalso
        simp only [bookTickets, hev, if_neg h1, if_pos h2] at hok
        exact BookResp.noConfusion hok
      · exact ⟨not_lt.1 h1, Nat.not_lt.1 h2⟩
  · intro heq
    have h1 : bookAvailable s ev category < (quantity : Int) := by
      rw [heq]
      exact lt_add_one _
    constructor <;> simp only [bookTickets, hev, if_pos h1]
  · intro heq h1q hlim hdet
    subst hdet
    have h1 : ¬ bookAvailable s ev category < (quantity : Int) := by
      rw [← heq]
      exact lt_irrefl _
    have h2 : ¬ ev.ticketLimit < quantity := Nat.not_lt.2 hlim
    have hct := createTickets_all_some
      (fun i => mkBookedTicket s ev buyerC category (bookPrice s ev category)
        [] i (s.nextId + i) now)
      (fun i => Ticket.mk (s.nextId + i) ev.id buyerC.id (some buyerC.id)
        category (bookPrice s ev category) now TStatus.valid none none none none)
      (fun i => mkBookedTicket_nil s ev buyerC category
        (bookPrice s ev category) i (s.nextId + i) now)
      quantity
    refine ⟨by simp only [bookTickets, hev, if_neg h1, if_neg h2, hct, if_true], ?_⟩
    simp only [bookTickets, hev, if_neg h1, if_neg h2, hct]
    rcases hcat : findCategory s ev.id category with _ | tc
    · have hcat2 : findCategory
          { s with
            tickets := s.tickets ++ (List.range quantity).map (fun i =>
              Ticket.mk (s.nextId + i) ev.id buyerC.id (some buyerC.id)
                category (bookPrice s ev category) now TStatus.valid
                none none none none)
            nextId := s.nextId + quantity } ev.id category = none := hcat
      have havail : bookAvailable s ev category = eventAvailable s ev := by
        rw [bookAvailable, hcat]
      simp only [bookAvailable, hcat2, eventAvailable, soldTicketsEvent]
      rw [length_filter_append]
      have hall : ∀ t ∈ (List.range quantity).map (fun i =>
          Ticket.mk (s.nextId + i) ev.id buyerC.id (some buyerC.id)
            category (bookPrice s ev category) now TStatus.valid
            none none none none),
          (fun t : Ticket => decide (t.eventId = ev.id ∧
            (t.status = TStatus.valid ∨ t.status = TStatus.used))) t = true := by
        intro t ht
        rcases List.mem_map.1 ht with ⟨j, _, rfl⟩
        simp
      rw [length_filter_all _ _ hall, List.length_map, List.length_range]
      have hsold : eventAvailable s ev
          = (ev.totalTickets : Int) - (soldTicketsEvent s ev : Int) := rfl
      rw [havail, hsold] at heq
      rw [soldTicketsEvent] at heq
      push_cast
      omega
    · have hcat2 : findCategory
          { s with
            tickets := s.tickets ++ (List.range quantity).map (fun i =>
              Ticket.mk (s.nextId + i) ev.id buyerC.id (some buyerC.id)
                category (bookPrice s ev category) now TStatus.valid
                none none none none)
            nextId := s.nextId + quantity } ev.id category = some tc := hcat
      have hcat' : s.categories.find?
          (fun c => decide (c.eventId = ev.id ∧ c.name = category)) = some tc := hcat
      have h5 := List.find?_some hcat'
      simp only [decide_eq_true_eq] at h5
      obtain ⟨htc1, htc2⟩ := h5
      have havail : bookAvailable s ev category = catAvailable s tc := by
        rw [bookAvailable, hcat]
      simp only [bookAvailable, hcat2, catAvailable, soldTicketsCat]
      rw [length_filter_append]
      have hall : ∀ t ∈ (List.range quantity).map (fun i =>
          Ticket.mk (s.nextId + i) ev.id buyerC.id (some buyerC.id)
            category (bookPrice s ev category) now TStatus.valid
            none none none none),
          (fun t : Ticket => decide (t.eventId = tc.eventId ∧ t.category = tc.name ∧
            (t.status = TStatus.valid ∨ t.status = TStatus.used))) t = true := by
        intro t ht
        rcases List.mem_map.1 ht with ⟨j, _, rfl⟩
        simp [htc1, htc2]
      rw [length_filter_all _ _ hall, List.length_map, List.length_range]
      have hsold : catAvailable s tc
          = (tc.totalTickets : Int) - (soldTicketsCat s tc : Int) := rfl
      rw [havail, hsold] at heq
      unfold soldTicketsCat at heq
      push_cast
      omega

/-- A store with one already-sold valid VIP ticket: the VIP category has
three seats, so two remain. -/
def sC8 : State :=
  { tickets := [tValid], customers := [cA], events := [ev1],
    categories := [vipCat], cards := [], logs := [], transfers := [],
    nextId := 60 }

/-- C8 witness: two VIP seats remain on the concrete store; booking
exactly two succeeds and drives the availability figure to zero. -/
theorem c8_capacity_boundary_witness :
    ((2 : Int) = bookAvailable sC8 ev1 "VIP" ∧ 1 ≤ 2 ∧ 2 ≤ ev1.ticketLimit) ∧
    ((bookTickets sC8 cA 10 "VIP" 2 [] 80).2 = BookResp.ok ∧
      bookAvailable (bookTickets sC8 cA 10 "VIP" 2 [] 80).1 ev1 "VIP" = 0) :=
  ⟨by decide,
   (c8_capacity_boundary sC8 cA 10 "VIP" 2 [] 80 ev1 (by decide)).2.2
     (by decide) (by decide) (by decide) rfl⟩

/-! ### C10 — client-supplied per-ticket price -/

end TicketRunners
